import Mathlib

/-!
Verification of the tech-news dashboard's client-side data hook and
presentation helpers, shallowly embedded from the TypeScript source
(`useArticles` hook, Supabase query construction, `getCategoryColor`).
-/

namespace TechNews

/-- A formatted article as produced by `fetchAllArticles` in `useArticles`:
`id`, `title`, `description`, `url`, `image_url`, `published_date` and
`source_name` are strings, `relevance_score` a number, and `categories`
the list of category names attached to the article. -/
structure Article where
  id : Nat
  title : String
  description : String
  url : String
  image_url : String
  published_date : String
  relevance_score : Nat
  source_name : String
  categories : List String
deriving DecidableEq, Repr

/-- `itemsPerPage` is fixed at 12 in `useArticles`. -/
def itemsPerPage : Nat := 12

/-- Embedding of the `filteredArticles` memo in `useArticles`:
if no category is selected, the whole fetched list is returned; otherwise
the articles that have at least one of the selected categories, in order. -/
def filteredArticles (selectedCategories : List String)
    (allArticles : List Article) : List Article :=
  if selectedCategories.length = 0 then
    allArticles
  else
    allArticles.filter (fun article =>
      selectedCategories.any (fun selectedCategory =>
        article.categories.contains selectedCategory))

/-- JavaScript `Array.prototype.slice(start, stop)` for non-negative
indices: the elements at positions `start` (inclusive) to `stop`
(exclusive). -/
def jsSlice (l : List Article) (start stop : Nat) : List Article :=
  (l.drop start).take (stop - start)

/-- Embedding of the `paginatedArticles` memo in `useArticles`:
`slice(startIndex, endIndex)` of the filtered list with
`startIndex = (currentPage - 1) * itemsPerPage` and
`endIndex = startIndex + itemsPerPage`. -/
def paginatedArticles (currentPage : Nat) (filtered : List Article) :
    List Article :=
  let startIndex := (currentPage - 1) * itemsPerPage
  let endIndex := startIndex + itemsPerPage
  jsSlice filtered startIndex endIndex

/-- Embedding of `totalPages = Math.ceil(totalItems / itemsPerPage)`
in `useArticles`, as ceiling division on naturals. -/
def totalPages (totalItems : Nat) : Nat :=
  (totalItems + (itemsPerPage - 1)) / itemsPerPage

/-- The sort key of `useArticles`: the TypeScript union `'recent' | 'relevance'`. -/
inductive SortBy
  | recent
  | relevance
deriving DecidableEq, Repr

/-- The two columns the article query can be ordered by. -/
inductive OrderColumn
  | published_date
  | relevance_score
deriving DecidableEq, Repr

/-- One `order(column, { ascending })` clause of a Supabase query. -/
structure OrderClause where
  column : OrderColumn
  ascending : Bool
deriving DecidableEq, Repr

/-- The article query built by `fetchAllArticles`: an optional
`eq('filtered', b)` condition, an optional `or(title.ilike.p,description.ilike.p)`
search condition (storing the pattern `p`), and an optional order clause. -/
structure ArticleQuery where
  filteredEq : Option Bool
  searchPattern : Option String
  order : Option OrderClause
deriving DecidableEq, Repr

/-- JavaScript `String.prototype.trim()`: strip leading and trailing
whitespace. -/
def jsTrim (s : String) : String :=
  ⟨((s.data.dropWhile Char.isWhitespace).reverse.dropWhile
      Char.isWhitespace).reverse⟩

/-- SQL `LIKE` matching on character lists (pattern first): `%` matches any
sequence of characters and `_` matches exactly one; other characters match
themselves. -/
def likeMatch : List Char → List Char → Bool
  | [], [] => true
  | [], _ :: _ => false
  | '%' :: ps, [] => likeMatch ps []
  | '%' :: ps, c :: cs =>
      likeMatch ps (c :: cs) || likeMatch ('%' :: ps) cs
  | '_' :: _, [] => false
  | '_' :: ps, _ :: cs => likeMatch ps cs
  | _ :: _, [] => false
  | p :: ps, c :: cs => (p == c) && likeMatch ps cs
termination_by p s => (s.length, p.length)

/-- Postgres `ilike`: case-insensitive `LIKE` of the string against the
pattern. -/
def ilike (s pattern : String) : Bool :=
  likeMatch pattern.toLower.data s.toLower.data

/-- Embedding of the query construction in `fetchAllArticles`: start from
`eq('filtered', false)`, add the `or` ilike condition on title and
description with pattern `%searchQuery%` when the trimmed search query is
non-empty, then order by `published_date` descending for the `recent` sort
key and by `relevance_score` descending otherwise. -/
def fetchQuery (searchQuery : String) (sortBy : SortBy) : ArticleQuery :=
  let query : ArticleQuery :=
    { filteredEq := some false, searchPattern := none, order := none }
  let query :=
    if jsTrim searchQuery ≠ "" then
      { query with searchPattern := some ("%" ++ searchQuery ++ "%") }
    else query
  if sortBy = SortBy.recent then
    { query with order := some ⟨OrderColumn.published_date, false⟩ }
  else
    { query with order := some ⟨OrderColumn.relevance_score, false⟩ }

/-- The columns of an `articles` row that the query's filter conditions can
mention. -/
structure ArticleRow where
  title : String
  description : String
  filtered : Bool
deriving DecidableEq, Repr

/-- Whether a row satisfies the filter conditions of an `ArticleQuery`
(the `eq('filtered', _)` condition and the `or` ilike search condition). -/
def rowMatches (q : ArticleQuery) (r : ArticleRow) : Bool :=
  (match q.filteredEq with
   | none => true
   | some b => r.filtered == b) &&
  (match q.searchPattern with
   | none => true
   | some pat => ilike r.title pat || ilike r.description pat)

/-- The pieces of `useArticles` state that `fetchAllArticles` writes. -/
structure FetchState where
  allArticles : List Article
  totalItems : Nat
  loading : Bool
  error : Option String
deriving DecidableEq, Repr

/-- Embedding of the body of `fetchAllArticles`, parameterised by the
outcome of the awaited backend query: `setLoading(true)` and
`setError(null)` run first; on success the formatted articles replace
`allArticles` and `totalItems`; on any failure the catch block sets the
fixed error message; the finally block clears the loading flag. -/
def fetchAllArticles (result : Except Unit (List Article))
    (s : FetchState) : FetchState :=
  let s := { s with loading := true, error := none }
  match result with
  | Except.ok formatted =>
      let s := { s with allArticles := formatted,
                        totalItems := formatted.length }
      { s with loading := false }
  | Except.error _ =>
      let s :=
        { s with error := some ("Failed to load articles. Please try again.") }
      { s with loading := false }

/-- A value that JavaScript bracket access on a string-valued object
literal can produce: a string property value, a member inherited from
`Object.prototype` (a function or object, hence truthy), or `undefined`. -/
inductive JsValue
  | str (s : String)
  | protoMember (name : String)
  | undefined
deriving DecidableEq, Repr

/-- The property names every plain JavaScript object literal inherits from
`Object.prototype`, which bracket access finds when the key is not an own
property: the standard members plus the universally implemented
`__proto__` accessor and legacy getter and setter definers. -/
def objectPrototypeMembers : List String :=
  ["constructor", "hasOwnProperty", "isPrototypeOf",
   "propertyIsEnumerable", "toLocaleString", "toString", "valueOf",
   "__proto__", "__defineGetter__", "__defineSetter__",
   "__lookupGetter__", "__lookupSetter__"]

/-- JavaScript bracket access `own[key]` on an object literal with own
string-valued properties `own`: the own property when present, else the
member inherited from `Object.prototype`, else `undefined`. -/
def jsIndex (own : List (String × String)) (key : String) : JsValue :=
  match own.lookup key with
  | some v => JsValue.str v
  | none =>
      if objectPrototypeMembers.contains key then
        JsValue.protoMember key
      else
        JsValue.undefined

/-- JavaScript truthiness of the values `jsIndex` can produce: the empty
string and `undefined` are falsy, everything else is truthy. -/
def jsTruthy : JsValue → Bool
  | JsValue.str s => s != ""
  | JsValue.protoMember _ => true
  | JsValue.undefined => false

/-- JavaScript `a || b` on these values: `a` when truthy, else `b`. -/
def jsOr (a b : JsValue) : JsValue :=
  if jsTruthy a then a else b

/-- `getCategoryColor` in `ArticleCard`: `colors[category] || '#5b7fff'`
where `colors` is an object literal with the ten known names as own
properties. -/
def getCategoryColorArticleCard (category : String) : JsValue :=
  let colors : List (String × String) :=
    [("AI", "#5b7fff"), ("TOOLS", "#ff5b7f"), ("DEV", "#7fff5b"),
     ("WEB", "#ffdf5b"), ("CLOUD", "#5bffdf"), ("CYBERSECURITY", "#df5bff"),
     ("MOBILE", "#ff8c5b"), ("STARTUPS", "#5bffff"),
     ("OPEN_SOURCE", "#ffd35b"), ("NEWS", "#8b5bff")]
  jsOr (jsIndex colors category) (JsValue.str ("#5b7fff"))

/-- `getCategoryColor` in `CategoryFilters`: `colors[category] || '#5b7fff'`
on its own copy of the same object literal. -/
def getCategoryColorCategoryFilters (category : String) : JsValue :=
  let colors : List (String × String) :=
    [("AI", "#5b7fff"), ("TOOLS", "#ff5b7f"), ("DEV", "#7fff5b"),
     ("WEB", "#ffdf5b"), ("CLOUD", "#5bffdf"), ("CYBERSECURITY", "#df5bff"),
     ("MOBILE", "#ff8c5b"), ("STARTUPS", "#5bffff"),
     ("OPEN_SOURCE", "#ffd35b"), ("NEWS", "#8b5bff")]
  jsOr (jsIndex colors category) (JsValue.str ("#5b7fff"))

/-- `getCategoryColor` in `Filters`: `colors[category] || '#5b7fff'` on
its own copy of the same object literal. -/
def getCategoryColorFilters (category : String) : JsValue :=
  let colors : List (String × String) :=
    [("AI", "#5b7fff"), ("TOOLS", "#ff5b7f"), ("DEV", "#7fff5b"),
     ("WEB", "#ffdf5b"), ("CLOUD", "#5bffdf"), ("CYBERSECURITY", "#df5bff"),
     ("MOBILE", "#ff8c5b"), ("STARTUPS", "#5bffff"),
     ("OPEN_SOURCE", "#ffd35b"), ("NEWS", "#8b5bff")]
  jsOr (jsIndex colors category) (JsValue.str ("#5b7fff"))

/-- The ten category names the color tables know. -/
def knownCategoryNames : List String :=
  ["AI", "TOOLS", "DEV", "WEB", "CLOUD", "CYBERSECURITY", "MOBILE",
   "STARTUPS", "OPEN_SOURCE", "NEWS"]

/-- Embedding of `handleCategoryToggle` in `useArticles`: remove the
category from the selection when present, append it at the end when
absent. -/
def handleCategoryToggle (category : String) (prev : List String) :
    List String :=
  if prev.contains category then
    prev.filter (fun c => c ≠ category)
  else
    prev ++ [category]

/-- The user interactions that reach the `useArticles` state: submitting a
search, picking a sort key, toggling a category pill, and clicking a page
control. -/
inductive HookEvent
  | setSearch (q : String)
  | setSort (sb : SortBy)
  | toggleCategory (c : String)
  | pageChange (p : Int)

/-- The `useArticles` state relevant to its control flow, extended with
counters of how often the categories query and the articles query have hit
the backend. -/
structure HookState where
  searchQuery : String
  sortBy : SortBy
  selectedCategories : List String
  currentPage : Int
  allArticles : List Article
  totalItems : Nat
  catFetchCount : Nat
  artFetchCount : Nat
deriving Repr

/-- The immediate state update performed by the event's handler
(`handleSearch`, `setSortBy`, `handleCategoryToggle`, `handlePageChange`
with its `1 <= page <= totalPages` guard). -/
def applyEvent (e : HookEvent) (s : HookState) : HookState :=
  match e with
  | HookEvent.setSearch q => { s with searchQuery := q }
  | HookEvent.setSort sb => { s with sortBy := sb }
  | HookEvent.toggleCategory c =>
      { s with selectedCategories :=
          handleCategoryToggle c s.selectedCategories }
  | HookEvent.pageChange p =>
      if 1 ≤ p ∧ p ≤ (totalPages s.totalItems : Int) then
        { s with currentPage := p }
      else s

/-- The effects that run after a state update: the
`useEffect([searchQuery, sortBy])` re-fetch of the articles when one of its
dependencies changed, and the `useEffect([filteredArticles])` that resets
`totalItems` and the current page when the filtered subset changed. -/
def runEffects (backend : String → SortBy → List Article)
    (prev s : HookState) : HookState :=
  let s :=
    if s.searchQuery ≠ prev.searchQuery ∨ s.sortBy ≠ prev.sortBy then
      { s with allArticles := backend s.searchQuery s.sortBy,
               artFetchCount := s.artFetchCount + 1 }
    else s
  if filteredArticles s.selectedCategories s.allArticles ≠
      filteredArticles prev.selectedCategories prev.allArticles then
    { s with
        totalItems :=
          (filteredArticles s.selectedCategories s.allArticles).length,
        currentPage := 1 }
  else s

/-- One render cycle of the hook: the handler's state update followed by
the effects it triggers. -/
def step (backend : String → SortBy → List Article)
    (s : HookState) (e : HookEvent) : HookState :=
  runEffects backend s (applyEvent e s)

/-- The mounted hook: the categories query runs once, the initial article
fetch runs with the empty search and the `recent` sort key, and the
filtered-subset effect initialises `totalItems` and the page. -/
def initState (backend : String → SortBy → List Article) : HookState :=
  let allA := backend ("") SortBy.recent
  { searchQuery := "", sortBy := SortBy.recent, selectedCategories := [],
    currentPage := 1, allArticles := allA,
    totalItems := (filteredArticles [] allA).length,
    catFetchCount := 1, artFetchCount := 1 }

/-- The hook state after a sequence of user interactions from mount. -/
def runHook (backend : String → SortBy → List Article)
    (evs : List HookEvent) : HookState :=
  evs.foldl (step backend) (initState backend)

/-- The page of articles the hook currently displays: the `paginatedArticles`
memo applied to the current page and the filtered subset. -/
def shownArticles (s : HookState) : List Article :=
  paginatedArticles s.currentPage.toNat
    (filteredArticles s.selectedCategories s.allArticles)

end TechNews

namespace TechNews

/-- C1: the category filter returns the whole list for an empty selection;
for a non-empty selection it keeps exactly the articles having at least one
selected category; and it always returns a sublist of the fetched list
(preserving its order). -/
theorem filteredArticles_spec (sel : List String) (as : List Article) :
    (sel = [] → filteredArticles sel as = as) ∧
    (sel ≠ [] →
      filteredArticles sel as =
        as.filter (fun a => decide (∃ c ∈ sel, c ∈ a.categories))) ∧
    (filteredArticles sel as).Sublist as := by
  refine ⟨fun h => by simp [filteredArticles, h], fun h => ?_, ?_⟩
  · have hlen : ¬ sel.length = 0 := by simpa using h
    simp only [filteredArticles, if_neg hlen]
    apply List.filter_congr
    intro a _
    rw [Bool.eq_iff_iff]
    simp [List.any_eq_true]
  · by_cases h : sel.length = 0
    · simp [filteredArticles, h]
    · simp only [filteredArticles, if_neg h]
      exact List.filter_sublist _

/-- Witness for C1 at a concrete input. -/
theorem filteredArticles_spec_witness :
    (["AI"] : List String) ≠ [] ∧
      filteredArticles ["AI"]
          [{ id := 1, title := "t", description := "d", url := "u",
             image_url := "", published_date := "2024", relevance_score := 3,
             source_name := "s", categories := ["AI", "DEV"] },
           { id := 2, title := "t2", description := "d2", url := "u2",
             image_url := "", published_date := "2024", relevance_score := 3,
             source_name := "s", categories := ["WEB"] }] =
        List.filter (fun a => decide (∃ c ∈ (["AI"] : List String), c ∈ a.categories))
          [{ id := 1, title := "t", description := "d", url := "u",
             image_url := "", published_date := "2024", relevance_score := 3,
             source_name := "s", categories := ["AI", "DEV"] },
           { id := 2, title := "t2", description := "d2", url := "u2",
             image_url := "", published_date := "2024", relevance_score := 3,
             source_name := "s", categories := ["WEB"] }] :=
  ⟨by decide,
   (filteredArticles_spec ["AI"] _).2.1 (by decide)⟩

/-- C2: for every current page `p ≥ 1`, the displayed page is exactly the
slice of the filtered list from index `(p-1)*12` (inclusive) to `p*12`
(exclusive) — element `i` of the page is element `(p-1)*12 + i` of the
filtered list, and nothing at or past index 12 is shown — and `totalPages`
is the ceiling of `totalItems / 12`: it is the unique `t` with
`totalItems ≤ 12 * t < totalItems + 12`. -/
theorem paginatedArticles_totalPages_spec (p : Nat) (_hp : 1 ≤ p)
    (filtered : List Article) (totalItems : Nat) :
    (∀ i : Nat,
      (paginatedArticles p filtered)[i]? =
        if i < 12 then filtered[(p - 1) * 12 + i]? else none) ∧
    totalItems ≤ 12 * totalPages totalItems ∧
    12 * totalPages totalItems < totalItems + 12 := by
  refine ⟨fun i => ?_, ?_, ?_⟩
  · simp only [paginatedArticles, jsSlice, itemsPerPage,
      Nat.add_sub_cancel_left]
    by_cases hi : i < 12
    · rw [if_pos hi, List.getElem?_take_of_lt hi, List.getElem?_drop]
    · rw [if_neg hi]
      exact List.getElem?_eq_none (le_trans (List.length_take_le _ _)
        (le_of_not_lt hi))
  · have h12 : 0 < 12 := by norm_num
    calc totalItems ≤ 12 * (totalItems / 12) + totalItems % 12 := by
          rw [Nat.div_add_mod]
      _ ≤ 12 * totalPages totalItems := by
          rcases Nat.eq_zero_or_pos (totalItems % 12) with hm | hm
          · simp only [totalPages, itemsPerPage]
            rw [hm, Nat.add_zero]
            have : totalItems / 12 ≤ (totalItems + 11) / 12 :=
              Nat.div_le_div_right (by omega)
            omega
          · simp only [totalPages, itemsPerPage]
            have key : totalItems / 12 + 1 ≤ (totalItems + 11) / 12 := by
              rw [Nat.le_div_iff_mul_le h12]
              have := Nat.div_add_mod totalItems 12
              have hm12 : totalItems % 12 < 12 := Nat.mod_lt _ h12
              omega
            have hm12 : totalItems % 12 < 12 := Nat.mod_lt _ h12
            calc 12 * (totalItems / 12) + totalItems % 12
                ≤ 12 * (totalItems / 12) + 12 := by omega
              _ = 12 * (totalItems / 12 + 1) := by ring
              _ ≤ 12 * ((totalItems + 11) / 12) :=
                  Nat.mul_le_mul_left _ key
  · simp only [totalPages, itemsPerPage]
    have : 12 * ((totalItems + 11) / 12) ≤ totalItems + 11 :=
      Nat.mul_div_le _ _
    omega

/-- Witness for C2 at a concrete input. -/
theorem paginatedArticles_totalPages_spec_witness :
    1 ≤ 2 ∧
    ((∀ i : Nat,
      (paginatedArticles 2 ([] : List Article))[i]? =
        if i < 12 then ([] : List Article)[(2 - 1) * 12 + i]? else none) ∧
    25 ≤ 12 * totalPages 25 ∧
    12 * totalPages 25 < 25 + 12) :=
  ⟨by decide, paginatedArticles_totalPages_spec 2 (by decide) [] 25⟩

/-- C5: when the trimmed search query is non-empty, the article query
carries the case-insensitive pattern `%query%` and accepts exactly the
non-filtered rows whose title or description matches it; when the trimmed
query is empty, no search condition is added. -/
theorem fetchQuery_search_spec (searchQuery : String) (sortBy : SortBy)
    (r : ArticleRow) :
    (jsTrim searchQuery ≠ "" →
      (fetchQuery searchQuery sortBy).searchPattern =
          some ("%" ++ searchQuery ++ "%") ∧
        rowMatches (fetchQuery searchQuery sortBy) r =
          ((r.filtered == false) &&
            (ilike r.title ("%" ++ searchQuery ++ "%") ||
             ilike r.description ("%" ++ searchQuery ++ "%")))) ∧
    (jsTrim searchQuery = "" →
      (fetchQuery searchQuery sortBy).searchPattern = none ∧
        rowMatches (fetchQuery searchQuery sortBy) r =
          (r.filtered == false)) := by
  constructor
  · intro h
    cases sortBy <;> simp [fetchQuery, rowMatches, h]
  · intro h
    cases sortBy <;> simp [fetchQuery, rowMatches, h]

/-- Witness for C5 at a concrete input. -/
theorem fetchQuery_search_spec_witness :
    jsTrim ("ai") ≠ "" ∧
      ((fetchQuery ("ai") SortBy.recent).searchPattern =
          some ("%" ++ "ai" ++ "%") ∧
        rowMatches (fetchQuery ("ai") SortBy.recent)
            { title := "AI news", description := "d", filtered := false } =
          ((false == false) &&
            (ilike ("AI news") ("%" ++ "ai" ++ "%") ||
             ilike ("d") ("%" ++ "ai" ++ "%")))) :=
  ⟨by decide,
   (fetchQuery_search_spec ("ai") SortBy.recent
      { title := "AI news", description := "d", filtered := false }).1
     (by decide)⟩

/-- C6: the sort key is one of `recent` and `relevance`; with `recent` the
query orders by `published_date` descending, and in every other case by
`relevance_score` descending. -/
theorem fetchQuery_order_spec (searchQuery : String) (sortBy : SortBy) :
    (sortBy = SortBy.recent ∨ sortBy = SortBy.relevance) ∧
    (sortBy = SortBy.recent →
      (fetchQuery searchQuery sortBy).order =
        some { column := OrderColumn.published_date, ascending := false }) ∧
    (sortBy ≠ SortBy.recent →
      (fetchQuery searchQuery sortBy).order =
        some { column := OrderColumn.relevance_score, ascending := false }) := by
  refine ⟨by cases sortBy <;> simp, fun h => ?_, fun h => ?_⟩
  · subst h
    by_cases hq : jsTrim searchQuery = "" <;> simp [fetchQuery, hq]
  · have : sortBy = SortBy.relevance := by cases sortBy <;> simp_all
    subst this
    by_cases hq : jsTrim searchQuery = "" <;> simp [fetchQuery, hq]

/-- Witness for C6 at a concrete input. -/
theorem fetchQuery_order_spec_witness :
    ((SortBy.recent = SortBy.recent ∨ SortBy.recent = SortBy.relevance) ∧
      (SortBy.recent = SortBy.recent →
        (fetchQuery ("") SortBy.recent).order =
          some { column := OrderColumn.published_date, ascending := false }) ∧
      (SortBy.recent ≠ SortBy.recent →
        (fetchQuery ("") SortBy.recent).order =
          some { column := OrderColumn.relevance_score, ascending := false })) ∧
    (fetchQuery ("") SortBy.recent).order =
      some { column := OrderColumn.published_date, ascending := false } :=
  ⟨fetchQuery_order_spec ("") SortBy.recent,
   (fetchQuery_order_spec ("") SortBy.recent).2.1 rfl⟩

/-- C8: every article query carries the condition `filtered = false`,
whatever the search query and sort key are, so a row with `filtered = true`
never satisfies the query. -/
theorem fetchQuery_filtered_spec (searchQuery : String) (sortBy : SortBy) :
    (fetchQuery searchQuery sortBy).filteredEq = some false ∧
    ∀ r : ArticleRow, r.filtered = true →
      rowMatches (fetchQuery searchQuery sortBy) r = false := by
  constructor
  · cases sortBy <;>
      by_cases hq : jsTrim searchQuery = "" <;> simp [fetchQuery, hq]
  · intro r hr
    cases sortBy <;>
      by_cases hq : jsTrim searchQuery = "" <;>
        simp [fetchQuery, rowMatches, hq, hr]

/-- Witness for C8 at a concrete input. -/
theorem fetchQuery_filtered_spec_witness :
    (fetchQuery ("x") SortBy.relevance).filteredEq = some false ∧
      rowMatches (fetchQuery ("x") SortBy.relevance)
          { title := "t", description := "d", filtered := true } = false :=
  ⟨(fetchQuery_filtered_spec ("x") SortBy.relevance).1,
   (fetchQuery_filtered_spec ("x") SortBy.relevance).2
     { title := "t", description := "d", filtered := true } rfl⟩

/-- C4: on any failed article fetch, the resulting state is the previous
state with only the error set to the fixed generic message and the loading
flag cleared; in particular `allArticles` and `totalItems` are untouched,
and no further action is taken. -/
theorem fetchAllArticles_error_spec (s : FetchState) (e : Unit) :
    (fetchAllArticles (Except.error e) s).allArticles = s.allArticles ∧
    (fetchAllArticles (Except.error e) s).totalItems = s.totalItems ∧
    (fetchAllArticles (Except.error e) s).loading = false ∧
    (fetchAllArticles (Except.error e) s).error =
      some ("Failed to load articles. Please try again.") ∧
    fetchAllArticles (Except.error e) s =
      { s with loading := false,
               error :=
                 some ("Failed to load articles. Please try again.") } :=
  ⟨rfl, rfl, rfl, rfl, rfl⟩

/-- C7 counterexample: JavaScript bracket access traverses the prototype
chain, so for the string `toString` — not one of the ten known names —
`colors[category]` finds the inherited truthy `Object.prototype` member
and `getCategoryColor` returns it instead of the default color
`#5b7fff`. -/
theorem getCategoryColor_proto_counterexample :
    ("toString" : String) ∉ knownCategoryNames ∧
      getCategoryColorArticleCard ("toString") ≠
        JsValue.str ("#5b7fff") ∧
      getCategoryColorArticleCard ("toString") =
        JsValue.protoMember ("toString") :=
  ⟨by decide, by decide, by decide⟩

/-- C7 (amended): the three copies of `getCategoryColor` in `ArticleCard`,
`CategoryFilters` and `Filters` define the same function; it maps each of
the ten known category names to its fixed hex color and every other string
to the default `#5b7fff`, except the property names inherited from
`Object.prototype`, for which the lookup returns the inherited truthy
member instead of the default. -/
theorem getCategoryColor_spec (category : String) :
    (getCategoryColorArticleCard category =
        getCategoryColorCategoryFilters category ∧
      getCategoryColorArticleCard category =
        getCategoryColorFilters category) ∧
    (getCategoryColorArticleCard ("AI") = JsValue.str ("#5b7fff") ∧
      getCategoryColorArticleCard ("TOOLS") = JsValue.str ("#ff5b7f") ∧
      getCategoryColorArticleCard ("DEV") = JsValue.str ("#7fff5b") ∧
      getCategoryColorArticleCard ("WEB") = JsValue.str ("#ffdf5b") ∧
      getCategoryColorArticleCard ("CLOUD") = JsValue.str ("#5bffdf") ∧
      getCategoryColorArticleCard ("CYBERSECURITY") =
        JsValue.str ("#df5bff") ∧
      getCategoryColorArticleCard ("MOBILE") = JsValue.str ("#ff8c5b") ∧
      getCategoryColorArticleCard ("STARTUPS") = JsValue.str ("#5bffff") ∧
      getCategoryColorArticleCard ("OPEN_SOURCE") =
        JsValue.str ("#ffd35b") ∧
      getCategoryColorArticleCard ("NEWS") = JsValue.str ("#8b5bff")) ∧
    (category ∉ knownCategoryNames →
      category ∉ objectPrototypeMembers →
        getCategoryColorArticleCard category =
          JsValue.str ("#5b7fff")) ∧
    (category ∉ knownCategoryNames →
      category ∈ objectPrototypeMembers →
        getCategoryColorArticleCard category =
          JsValue.protoMember category) := by
  refine ⟨⟨rfl, rfl⟩, ?_, ?_, ?_⟩
  · exact ⟨by decide, by decide, by decide, by decide, by decide, by decide,
      by decide, by decide, by decide, by decide⟩
  · intro h hp
    simp only [knownCategoryNames, List.mem_cons, not_or,
      List.not_mem_nil, not_false_iff, and_true] at h
    obtain ⟨h1, h2, h3, h4, h5, h6, h7, h8, h9, h10⟩ := h
    simp [getCategoryColorArticleCard, jsIndex, jsOr, jsTruthy,
      List.lookup, hp,
      beq_eq_false_iff_ne.mpr h1, beq_eq_false_iff_ne.mpr h2,
      beq_eq_false_iff_ne.mpr h3, beq_eq_false_iff_ne.mpr h4,
      beq_eq_false_iff_ne.mpr h5, beq_eq_false_iff_ne.mpr h6,
      beq_eq_false_iff_ne.mpr h7, beq_eq_false_iff_ne.mpr h8,
      beq_eq_false_iff_ne.mpr h9, beq_eq_false_iff_ne.mpr h10]
  · intro h hp
    simp only [knownCategoryNames, List.mem_cons, not_or,
      List.not_mem_nil, not_false_iff, and_true] at h
    obtain ⟨h1, h2, h3, h4, h5, h6, h7, h8, h9, h10⟩ := h
    simp [getCategoryColorArticleCard, jsIndex, jsOr, jsTruthy,
      List.lookup, hp,
      beq_eq_false_iff_ne.mpr h1, beq_eq_false_iff_ne.mpr h2,
      beq_eq_false_iff_ne.mpr h3, beq_eq_false_iff_ne.mpr h4,
      beq_eq_false_iff_ne.mpr h5, beq_eq_false_iff_ne.mpr h6,
      beq_eq_false_iff_ne.mpr h7, beq_eq_false_iff_ne.mpr h8,
      beq_eq_false_iff_ne.mpr h9, beq_eq_false_iff_ne.mpr h10]

/-- Witness for C7 at concrete inputs: an unknown plain string gets the
default color, and an `Object.prototype` name gets the inherited member. -/
theorem getCategoryColor_spec_witness :
    (("FOO" : String) ∉ knownCategoryNames ∧
      ("FOO" : String) ∉ objectPrototypeMembers ∧
      getCategoryColorArticleCard ("FOO") = JsValue.str ("#5b7fff")) ∧
    (("valueOf" : String) ∉ knownCategoryNames ∧
      ("valueOf" : String) ∈ objectPrototypeMembers ∧
      getCategoryColorArticleCard ("valueOf") =
        JsValue.protoMember ("valueOf")) :=
  ⟨⟨by decide, by decide,
    (getCategoryColor_spec ("FOO")).2.2.1 (by decide) (by decide)⟩,
   ⟨by decide, by decide,
    (getCategoryColor_spec ("valueOf")).2.2.2 (by decide) (by decide)⟩⟩

/-- No event handler or effect touches the categories-query counter. -/
theorem step_catFetchCount (backend : String → SortBy → List Article)
    (s : HookState) (e : HookEvent) :
    (step backend s e).catFetchCount = s.catFetchCount := by
  cases e <;>
    simp only [step, applyEvent, runEffects] <;>
    repeat' first
      | rfl
      | split

/-- Every handler and effect keeps the current page at least 1. -/
theorem step_currentPage_ge_one (backend : String → SortBy → List Article)
    (s : HookState) (e : HookEvent) (hs : 1 ≤ s.currentPage) :
    1 ≤ (step backend s e).currentPage := by
  cases e <;>
    simp only [step, applyEvent, runEffects] <;>
    (repeat' split) <;>
    simp_all

/-- C3: from mount, the categories query runs exactly once; toggling a
category sends no article query and leaves the fetched list unchanged,
only replacing the selection; an event re-fetches the articles exactly
when it changes the search query or the sort key; and the displayed page
slice is a function of the current page and the filtered subset alone. -/
theorem hook_frame_spec (backend : String → SortBy → List Article) :
    (∀ evs : List HookEvent, (runHook backend evs).catFetchCount = 1) ∧
    (∀ s : HookState, ∀ c : String,
      (step backend s (HookEvent.toggleCategory c)).allArticles =
          s.allArticles ∧
        (step backend s (HookEvent.toggleCategory c)).artFetchCount =
          s.artFetchCount ∧
        (step backend s (HookEvent.toggleCategory c)).selectedCategories =
          handleCategoryToggle c s.selectedCategories) ∧
    (∀ s : HookState, ∀ e : HookEvent,
      (step backend s e).artFetchCount =
        s.artFetchCount +
          (if (applyEvent e s).searchQuery ≠ s.searchQuery ∨
              (applyEvent e s).sortBy ≠ s.sortBy then 1 else 0)) ∧
    (∀ s t : HookState, s.currentPage = t.currentPage →
      filteredArticles s.selectedCategories s.allArticles =
        filteredArticles t.selectedCategories t.allArticles →
      shownArticles s = shownArticles t) := by
  refine ⟨?_, ?_, ?_, ?_⟩
  · intro evs
    have key : ∀ (l : List HookEvent) (s : HookState),
        (l.foldl (step backend) s).catFetchCount = s.catFetchCount := by
      intro l
      induction l with
      | nil => intro s; rfl
      | cons e tl ih =>
          intro s
          rw [List.foldl_cons, ih, step_catFetchCount]
    rw [runHook, key]
    rfl
  · intro s c
    refine ⟨?_, ?_, ?_⟩ <;>
      (simp only [step, applyEvent, runEffects];
       repeat' split) <;>
      simp_all
  · intro s e
    cases e <;>
      simp only [step, applyEvent, runEffects] <;>
      repeat' first
        | rfl
        | omega
        | simp_all
        | split
  · intro s t h1 h2
    simp only [shownArticles, h1, h2]

/-- Witness for C3 at a concrete input. -/
theorem hook_frame_spec_witness :
    (runHook (fun _ _ => ([] : List Article)) []).catFetchCount = 1 ∧
      shownArticles (initState (fun _ _ => ([] : List Article))) =
        shownArticles (initState (fun _ _ => ([] : List Article))) :=
  ⟨(hook_frame_spec (fun _ _ => ([] : List Article))).1 [],
   (hook_frame_spec (fun _ _ => ([] : List Article))).2.2.2 _ _ rfl rfl⟩

/-- C9: a page-change event moves the current page to the requested value
exactly when it lies between 1 and the total page count, and leaves it
unchanged otherwise; starting from mount, the current page is always at
least 1. -/
theorem handlePageChange_spec (backend : String → SortBy → List Article) :
    (∀ s : HookState, ∀ p : Int,
      ((1 ≤ p ∧ p ≤ (totalPages s.totalItems : Int)) →
        (step backend s (HookEvent.pageChange p)).currentPage = p) ∧
      (¬ (1 ≤ p ∧ p ≤ (totalPages s.totalItems : Int)) →
        (step backend s (HookEvent.pageChange p)).currentPage =
          s.currentPage)) ∧
    (∀ evs : List HookEvent, 1 ≤ (runHook backend evs).currentPage) := by
  constructor
  · intro s p
    constructor <;> intro h <;>
      simp only [step, applyEvent, runEffects] <;>
      simp [h]
  · intro evs
    have key : ∀ (l : List HookEvent) (s : HookState),
        1 ≤ s.currentPage →
          1 ≤ (l.foldl (step backend) s).currentPage := by
      intro l
      induction l with
      | nil => intro s hs; exact hs
      | cons e tl ih =>
          intro s hs
          rw [List.foldl_cons]
          exact ih _ (step_currentPage_ge_one backend s e hs)
    exact key evs _ le_rfl

/-- Witness for C9 at a concrete input. -/
theorem handlePageChange_spec_witness :
    (¬ ((1 : Int) ≤ 0 ∧
        (0 : Int) ≤
          (totalPages
            (initState (fun _ _ => ([] : List Article))).totalItems :
              Int))) ∧
      (step (fun _ _ => ([] : List Article))
          (initState (fun _ _ => ([] : List Article)))
          (HookEvent.pageChange 0)).currentPage =
        (initState (fun _ _ => ([] : List Article))).currentPage ∧
      1 ≤ (runHook (fun _ _ => ([] : List Article)) []).currentPage :=
  ⟨by decide,
   ((handlePageChange_spec (fun _ _ => ([] : List Article))).1 _ 0).2
     (by decide),
   (handlePageChange_spec (fun _ _ => ([] : List Article))).2 []⟩

/-- C10 counterexample: toggling the same category twice does not restore
the original duplicate-free selection when the category is present but not
last: from `["A", "B"]`, toggling `"A"` twice yields `["B", "A"]`. -/
theorem handleCategoryToggle_twice_counterexample :
    (["A", "B"] : List String).Nodup ∧
      handleCategoryToggle ("A") (handleCategoryToggle ("A") ["A", "B"]) =
        ["B", "A"] ∧
      handleCategoryToggle ("A") (handleCategoryToggle ("A") ["A", "B"]) ≠
        ["A", "B"] := by
  refine ⟨by decide, by decide, by decide⟩

/-- C10 (amended): toggling removes every occurrence of the category when
present and appends it at the end when absent; from the empty selection
the selection never contains duplicates; toggling the same category twice
restores the original selection exactly when the category was absent, and
on a duplicate-free selection it always restores the original's members
(the same categories are selected), though not necessarily their order. -/
theorem handleCategoryToggle_spec (c : String) (l : List String) :
    (c ∈ l → handleCategoryToggle c l = l.filter (fun x => x ≠ c)) ∧
    (c ∉ l → handleCategoryToggle c l = l ++ [c]) ∧
    (∀ cs : List String,
      (cs.foldl (fun acc x => handleCategoryToggle x acc) []).Nodup) ∧
    (c ∉ l → handleCategoryToggle c (handleCategoryToggle c l) = l) ∧
    (l.Nodup → ∀ x : String,
      x ∈ handleCategoryToggle c (handleCategoryToggle c l) ↔ x ∈ l) := by
  have htog : ∀ (a : String) (m : List String),
      m.Nodup → (handleCategoryToggle a m).Nodup := by
    intro a m hm
    by_cases h : a ∈ m
    · rw [handleCategoryToggle, if_pos (by simp [h])]
      exact hm.filter _
    · rw [handleCategoryToggle, if_neg (by simp [h])]
      simpa [List.nodup_append] using ⟨hm, h⟩
  have habs : ∀ (a : String) (m : List String), a ∉ m →
      handleCategoryToggle a m = m ++ [a] := by
    intro a m h
    rw [handleCategoryToggle, if_neg (by simp [h])]
  have hpres : ∀ (a : String) (m : List String), a ∈ m →
      handleCategoryToggle a m = m.filter (fun x => x ≠ a) := by
    intro a m h
    rw [handleCategoryToggle, if_pos (by simp [h])]
  refine ⟨hpres c l, habs c l, ?_, ?_, ?_⟩
  · intro cs
    have key : ∀ (rest : List String) (acc : List String), acc.Nodup →
        (rest.foldl (fun acc x => handleCategoryToggle x acc) acc).Nodup := by
      intro rest
      induction rest with
      | nil => intro acc h; exact h
      | cons a tl ih =>
          intro acc h
          rw [List.foldl_cons]
          exact ih _ (htog a acc h)
    exact key cs [] List.nodup_nil
  · intro h
    rw [habs c l h, hpres c (l ++ [c]) (by simp)]
    rw [List.filter_append]
    rw [List.filter_eq_self.2 (by
      intro x hx
      simp only [ne_eq, decide_eq_true_eq]
      exact fun hxc => h (hxc ▸ hx))]
    simp
  · intro hnd x
    by_cases h : c ∈ l
    · rw [hpres c l h]
      have hc : c ∉ l.filter (fun x => x ≠ c) := by
        simp [List.mem_filter]
      rw [habs c _ hc]
      simp only [List.mem_append, List.mem_filter, List.mem_singleton,
        ne_eq, decide_eq_true_eq]
      constructor
      · rintro (⟨hx, _⟩ | rfl)
        · exact hx
        · exact h
      · intro hx
        by_cases hxc : x = c
        · exact Or.inr hxc
        · exact Or.inl ⟨hx, hxc⟩
    · rw [habs c l h, hpres c (l ++ [c]) (by simp)]
      rw [List.filter_append]
      rw [List.filter_eq_self.2 (by
        intro y hy
        simp only [ne_eq, decide_eq_true_eq]
        exact fun hyc => h (hyc ▸ hy))]
      simp

/-- Witness for C10 at a concrete input. -/
theorem handleCategoryToggle_spec_witness :
    ("A" : String) ∉ (["B"] : List String) ∧
      handleCategoryToggle ("A") ["B"] = ["B"] ++ ["A"] :=
  ⟨by decide, (handleCategoryToggle_spec ("A") ["B"]).2.1 (by decide)⟩

